import Mathlib

/-!
Verification development for the ultimatum ZFS management core
(src/ultimatum/zfs.py old API, src/ultimatum/zfs/zfs.py and
src/ultimatum/zfs/zpool.py new API).

External command execution is modelled by an oracle `World` mapping an
argument vector to either captured output lines or a nonzero-exit failure.
Effectful operations take a `World` and return the ordered list of external
commands they issued together with an `Except` result.
-/

set_option maxRecDepth 8192

/-- Python exception outcomes observable from the modelled code. -/
inductive PyError where
  | zfsError (msg : String)
  | commandFailed (cmd : String)
  | nameError (name : String)
  | typeError (msg : String)
  | valueError (msg : String)
deriving DecidableEq, Repr

/-- Result of running one external command. -/
inductive CmdResult where
  | ok (lines : List String)
  | fail
deriving DecidableEq, Repr

/-- The external subsystem: maps an argument vector to its outcome. -/
abbrev World := List String → CmdResult

/- ### String utilities mirroring the Python operations used by the source -/

/-- Core of `str.split(sep, 1)`: split a character list at the first
occurrence of `sep`; `none` when `sep` does not occur. -/
def splitOnceAux (sep : Char) : List Char → Option (List Char × List Char)
  | [] => none
  | c :: rest =>
    if c = sep then some ([], rest)
    else (splitOnceAux sep rest).map (fun p => (c :: p.1, p.2))

/-- `s.split(sep, 1)` on strings: the parts before and after the first `sep`. -/
def splitOnce (sep : Char) (s : String) : Option (String × String) :=
  (splitOnceAux sep s.toList).map (fun p => (String.mk p.1, String.mk p.2))

/-- Split at the last occurrence of `sep`. -/
def splitLast (sep : Char) (s : String) : Option (String × String) :=
  (splitOnceAux sep s.toList.reverse).map
    (fun p => (String.mk p.2.reverse, String.mk p.1.reverse))

/-- `str.rstrip()`: drop trailing whitespace. -/
def pyRstrip (s : String) : String :=
  String.mk ((s.toList.reverse.dropWhile Char.isWhitespace).reverse)

/-- `str.strip()`: drop leading and trailing whitespace.  (The core
`String.trim` is defined by well-founded recursion and does not reduce in
the kernel, so we use this structural implementation.) -/
def pyStrip (s : String) : String :=
  String.mk (((s.toList.dropWhile Char.isWhitespace).reverse.dropWhile
    Char.isWhitespace).reverse)

def splitChAux (sep : Char) : List Char → List Char → List String
  | [], acc => [String.mk acc.reverse]
  | c :: rest, acc =>
    if c = sep then String.mk acc.reverse :: splitChAux sep rest []
    else splitChAux sep rest (c :: acc)

/-- `str.split(sep)` for a one-character separator. -/
def splitCh (sep : Char) (s : String) : List String :=
  splitChAux sep s.toList []

/-- `sep.join(parts)` for the one-space separator. -/
def joinSp : List String → String
  | [] => ""
  | [x] => x
  | x :: y :: rest => x ++ " " ++ joinSp (y :: rest)

/-- `x.split(chr(9))[0]`: the field before the first tab (the whole string
when no tab occurs). -/
def firstField (s : String) : String :=
  match splitOnce '\t' s with
  | some p => p.1
  | none => s

/-- `line.split()[0]` on a trimmed non-empty line: the first
whitespace-delimited token. -/
def firstTok (s : String) : String :=
  String.mk (s.toList.takeWhile (fun c => ¬ c.isWhitespace))

/-- Whitespace tokenisation used by `line.split(None, 3)`. -/
def pyTokens (s : String) : List String :=
  (((splitCh ' ' s).map (splitCh '\t')).flatten).filter (· ≠ "")

/- ### check_cmd_output (src/ultimatum/zfs.py lines 20-26)

Runs the command; a `CalledProcessError` is caught and re-raised as
`ZFSError('Error running command ...')`.  On success the output is split
into lines, blank lines dropped and each kept line right-stripped. -/

def check_cmd_output (w : World) (cmd : List String) : Except PyError (List String) :=
  match w cmd with
  | .fail => .error (.zfsError ("Error running command " ++ joinSp cmd))
  | .ok lines => .ok ((lines.filter (fun x => pyStrip x ≠ "")).map pyRstrip)

/-- Modelled from the spec: `execute` lives in ultimatum/zfs/__init__.py,
which is not under src/.  Per the spec (CommandRunner, section 6) it returns
the captured output as an ordered sequence of trimmed non-empty lines and
raises `CommandExecutionFailed` carrying the argument vector on nonzero
exit.  New-API call sites pass the command as one string; it is split on
spaces into the argument vector. -/
def execute (w : World) (cmd : String) : Except PyError (List String) :=
  match w (splitCh ' ' cmd) with
  | .fail => .error (.commandFailed cmd)
  | .ok lines => .ok ((lines.map pyStrip).filter (· ≠ ""))

/-- Modelled from the spec: `SNAPSHOT_DATE_FORMAT` is defined in
ultimatum/zfs/__init__.py, which is not under src/.  The spec (section 6)
fixes the timestamp grammar, and the old API (src/ultimatum/zfs.py) uses
this very format string literally. -/
def SNAPSHOT_DATE_FORMAT : String := "%Y-%m-%d.%H:%M:%S"

/- ### The two tag grammars (POOL_NAMING_SORTERS, src/ultimatum/zfs.py 11-14) -/

def digitVal (c : Char) : Option Nat :=
  if c.isDigit then some (c.toNat - 48) else none

def parseDigitsAux : List Char → Nat → Option Nat
  | [], acc => some acc
  | c :: rest, acc =>
    match digitVal c with
    | some d => parseDigitsAux rest (acc * 10 + d)
    | none => none

/-- A non-empty all-digit sequence as a number. -/
def parseDigits : List Char → Option Nat
  | [] => none
  | c :: rest => parseDigitsAux (c :: rest) 0

/-- The plain-integer grammar: Python `int(tag)` with optional sign. -/
def intKey (s : String) : Option Int :=
  match s.toList with
  | '-' :: rest => (parseDigits rest).map (fun n => -(n : Int))
  | '+' :: rest => (parseDigits rest).map (fun n => (n : Int))
  | l => (parseDigits l).map (fun n => (n : Int))

def isLeap (y : Nat) : Bool :=
  (y % 4 == 0 && y % 100 != 0) || y % 400 == 0

def daysInMonth (y m : Nat) : Nat :=
  if m = 2 then (if isLeap y then 29 else 28)
  else if m = 4 ∨ m = 6 ∨ m = 9 ∨ m = 11 then 30
  else 31

def p2 (a b : Char) : Option Nat :=
  match digitVal a, digitVal b with
  | some x, some y => some (10 * x + y)
  | _, _ => none

/-- The timestamp grammar `%Y-%m-%d.%H:%M:%S` of
`datetime.strptime`, as an order-embedding into `Int`: a string parses
exactly when it has the fixed shape with in-range calendar fields, and the
returned key compares the same way the parsed datetimes compare.
(`strptime` also accepts non-zero-padded fields; the spec, section 6, fixes
the padded grammar, which is what every claim exercises.) -/
def tsKey (s : String) : Option Int :=
  match s.toList with
  | [y1, y2, y3, y4, '-', m1, m2, '-', d1, d2, '.', h1, h2, ':', n1, n2, ':', s1, s2] =>
    match p2 y1 y2, p2 y3 y4, p2 m1 m2, p2 d1 d2, p2 h1 h2, p2 n1 n2, p2 s1 s2 with
    | some yh, some yl, some mo, some d, some h, some mi, some se =>
      let y := 100 * yh + yl
      if 1 ≤ mo ∧ mo ≤ 12 ∧ 1 ≤ d ∧ d ≤ daysInMonth y mo ∧ h ≤ 23 ∧ mi ≤ 59 ∧ se ≤ 59 then
        some (((((((y * 13 + mo) * 32 + d) * 24 + h) * 60 + mi) * 60 + se : Nat) : Int))
      else none
    | _, _, _, _, _, _, _ => none
  | _ => none

/- ### Sorting (ZFSSnapshots.reload, src/ultimatum/zfs.py 62-69)

Python 2 `list.sort(cmp)` with a comparator that may raise `ValueError`:
with at least two elements, a completed sort must have compared every
element at least once, so the sort completes exactly when every element
parses under the grammar; with at most one element no comparison runs and
the sort trivially succeeds.  On failure CPython may leave the list in an
unspecified partially-permuted state; we model it as unchanged. -/

def insertLe (key : String → Int) (x : String) : List String → List String
  | [] => [x]
  | y :: ys => if key x ≤ key y then x :: y :: ys else y :: insertLe key x ys

/-- Stable insertion sort by key (models the stable timsort under `cmp`). -/
def sortLe (key : String → Int) : List String → List String
  | [] => []
  | x :: xs => insertLe key x (sortLe key xs)

/-- One sorter from POOL_NAMING_SORTERS applied through `list.sort`:
`some` sorted list when the sort completes, `none` when the comparator
raises `ValueError`. -/
def sortByKey (key : String → Option Int) (l : List String) : Option (List String) :=
  if l.length ≤ 1 then some l
  else if l.all (fun t => (key t).isSome) then
    some (sortLe (fun t => (key t).getD 0) l)
  else none

/-- The inner sorter loop for one (pool, volume) group: timestamp grammar
first, then the integer grammar. -/
def trySortTags (tags : List String) : Option (List String) :=
  match sortByKey tsKey tags with
  | some s => some s
  | none => sortByKey intKey tags

/- ### The snapshot catalog (ZFSSnapshots, src/ultimatum/zfs.py 28-69)

Python 2 dict iteration order is unspecified; the two-level dict is
modelled as association lists in insertion order. -/

abbrev Catalog := List (String × List (String × List String))

def volAppend (v tag : String) : List (String × List String) → List (String × List String)
  | [] => [(v, [tag])]
  | (v', ts) :: rest =>
    if v' = v then (v', ts ++ [tag]) :: rest else (v', ts) :: volAppend v tag rest

def catInsert (p v tag : String) : Catalog → Catalog
  | [] => [(p, [(v, [tag])])]
  | (p', vs) :: rest =>
    if p' = p then (p', volAppend v tag vs) :: rest else (p', vs) :: catInsert p v tag rest

/-- `ZFSVolume.snapshots` through `ZFSPool.snapshots`: a missing pool key
yields the empty dict, a missing volume key the empty list. -/
def volSnapshots (cat : Catalog) (p v : String) : List String :=
  match cat.lookup p with
  | none => []
  | some vs => (vs.lookup v).getD []

/-- The sorting pass over one pool: the first group whose sort completes
stops the whole reload (the `return` at src/ultimatum/zfs.py line 67 exits
`reload`, not just the sorter loop).  The Bool reports whether the early
return fired. -/
def sortVolumes : List (String × List String) → List (String × List String) × Bool
  | [] => ([], false)
  | (v, tags) :: rest =>
    match trySortTags tags with
    | some s => ((v, s) :: rest, true)
    | none =>
      let r := sortVolumes rest
      ((v, tags) :: r.1, r.2)

def sortPools : Catalog → Catalog
  | [] => []
  | (p, vols) :: rest =>
    let r := sortVolumes vols
    if r.2 then (p, r.1) :: rest else (p, r.1) :: sortPools rest

/-- The per-entry parse of `ZFSSnapshots.reload` (src/ultimatum/zfs.py
44-51): `volume,snapshot = entry.split(chr(64), 1)` splits at the FIRST
at-sign (unpack failure when there is none is re-raised as a ZFSError);
then `pool,volume = volume.split(chr(47), 1)` splits at the first slash,
pool and volume coinciding when there is none.  Returns
(pool, volume, tag). -/
def parseEntry (entry : String) : Except PyError (String × String × String) :=
  match splitOnce '@' entry with
  | none => .error (.zfsError ("Error parsing zfs snapshot output from " ++ entry))
  | some (volume, snapshot) =>
    match splitOnce '/' volume with
    | some (pool, rest) => .ok (pool, rest, snapshot)
    | none => .ok (volume, volume, snapshot)

/-- The accumulation loop of `ZFSSnapshots.reload`: blank entries skipped,
each parsed entry appended to its (pool, volume) group. -/
def reloadEntries : List String → Catalog → Except PyError Catalog
  | [], cat => .ok cat
  | entry :: rest, cat =>
    if pyStrip entry = "" then reloadEntries rest cat
    else
      match parseEntry entry with
      | .error e => .error e
      | .ok (p, v, t) => reloadEntries rest (catInsert p v t cat)

/-- `ZFSSnapshots.reload` (src/ultimatum/zfs.py 38-69): list all snapshots
system-wide, take the first tab field of each line, build the catalog,
then run the sorting pass with its early return. -/
def ZFSSnapshots.reload (w : World) : Except PyError Catalog :=
  match check_cmd_output w ["zfs", "list", "-Ht", "snapshot"] with
  | .error e => .error e
  | .ok lines =>
    match reloadEntries (lines.map firstField) [] with
    | .error e => .error e
    | .ok cat => .ok (sortPools cat)

/- ### Old API: ZFSPool (src/ultimatum/zfs.py 83-194) -/

/-- `ZFSPool.available` (lines 98-108).  The `except CalledProcessError:
return False` clause is dead code: `check_cmd_output` has already caught
`CalledProcessError` and raised `ZFSError`, which is not caught here and
propagates.  The property can therefore only return True or raise. -/
def ZFSPool.available (w : World) (poolName : String) : Except PyError Bool :=
  match check_cmd_output w ["zpool", "list", poolName] with
  | .error e => .error e
  | .ok _ => .ok true

/-- `ZFSPool.import_pool` (lines 110-118). -/
def ZFSPool.import_pool (w : World) (poolName : String) :
    List (List String) × Except PyError Unit :=
  let cmd := ["zpool", "import", poolName]
  match check_cmd_output w cmd with
  | .error _ => ([cmd], .error (.zfsError ("Error importing pool: " ++ poolName)))
  | .ok _ => ([cmd], .ok ())

/-- One volume of a pool: full dataset name, name relative to the pool, and
optional mountpoint. -/
structure VolEntry where
  volume : String
  name : String
  mountpoint : Option String
deriving DecidableEq, Repr

/-- `ZFSVolume.__init__` name computation (lines 200-209): when the dataset
is not the pool root, the relative name drops the pool-name prefix and
leading slashes. -/
def relativeName (poolName vol : String) : String :=
  if poolName = vol then vol
  else String.mk ((vol.toList.drop poolName.length).dropWhile (· = '/'))

/-- `mountpoint != 'none' and mountpoint or None` (line 204): the falsy
empty string also collapses to None. -/
def mkMountpoint (m : String) : Option String :=
  if m ≠ "none" ∧ m ≠ "" then some m else none

/-- One line of `zfs list -Hd2`: exactly five tab-separated fields, an
unpack failure raising an uncaught `ValueError` (line 145). -/
def parseVolLine (poolName l : String) : Except PyError VolEntry :=
  match splitCh '\t' l with
  | [vol, _blocks, _used, _total, mountpoint] =>
    .ok ⟨vol, relativeName poolName vol, mkMountpoint mountpoint⟩
  | _ => .error (.valueError ("need more than 1 value to unpack: " ++ l))

def buildVols (poolName : String) : List String → Except PyError (List VolEntry)
  | [] => .ok []
  | l :: rest =>
    match parseVolLine poolName l with
    | .error e => .error e
    | .ok v =>
      match buildVols poolName rest with
      | .error e => .error e
      | .ok vs => .ok (v :: vs)

def insertVol (x : VolEntry) : List VolEntry → List VolEntry
  | [] => [x]
  | y :: ys => if x.volume ≤ y.volume then x :: y :: ys else y :: insertVol x ys

/-- `self.sort()` (line 149) under `ZFSVolume.__cmp__`: same pool, so the
order is the string order of the full dataset names. -/
def sortVols : List VolEntry → List VolEntry
  | [] => []
  | x :: xs => insertVol x (sortVols xs)

/-- `ZFSPool.load` (lines 130-149).  The `except CalledProcessError` around
the dataset listing is dead code for the same reason as in `available`:
a listing failure surfaces as the ZFSError raised by `check_cmd_output`. -/
def ZFSPool.load (w : World) (poolName : String) :
    List (List String) × Except PyError (List VolEntry) :=
  let cmd1 := ["zpool", "list", poolName]
  match check_cmd_output w cmd1 with
  | .error _ => ([cmd1], .error (.zfsError ("pool does not exist: " ++ poolName)))
  | .ok _ =>
    let cmd2 := ["zfs", "list", "-Hd2", poolName]
    match check_cmd_output w cmd2 with
    | .error e => ([cmd1, cmd2], .error e)
    | .ok lines =>
      match buildVols poolName (lines.filter (· ≠ "")) with
      | .error e => ([cmd1, cmd2], .error e)
      | .ok vols => ([cmd1, cmd2], .ok (sortVols vols))

/-- `ZFSPool.__init__` (lines 87-93): query availability, import when it
reports unavailable, then load the volume list.  Because `available` can
only return True or raise, an unavailable pool makes the constructor raise
at the availability query and the import branch is unreachable. -/
def ZFSPool.init (w : World) (poolName : String) :
    List (List String) × Except PyError (List VolEntry) :=
  let statusCmd := ["zpool", "list", poolName]
  match ZFSPool.available w poolName with
  | .error e => ([statusCmd], .error e)
  | .ok avail =>
    if avail then
      let r := ZFSPool.load w poolName
      (statusCmd :: r.1, r.2)
    else
      let imp := ZFSPool.import_pool w poolName
      match imp.2 with
      | .error e => (statusCmd :: imp.1, .error e)
      | .ok _ =>
        let r := ZFSPool.load w poolName
        (statusCmd :: imp.1 ++ r.1, r.2)

/-- `ZFSPool.create_volume` (lines 173-185).  The membership test
`volume in self` compares the composed name `pool/name` against each
`ZFSVolume` through `ZFSVolume.__cmp__` (lines 214-219), whose string
branch compares `self.name`, the pool-relative name. -/
def ZFSPool.create_volume (w : World) (poolName : String) (vols : List VolEntry)
    (name : String) : List (List String) × Except PyError VolEntry :=
  let volume := poolName ++ "/" ++ name
  if vols.any (fun v => v.name = volume) then
    ([], .error (.zfsError ("Attempt to create existing volume: " ++ volume)))
  else
    let cmd := ["zfs", "create", volume]
    match w cmd with
    | .fail => ([cmd], .error (.zfsError ("Error creating volume " ++ volume)))
    | .ok _ =>
      let r := ZFSPool.load w poolName
      match r.2 with
      | .error e => (cmd :: r.1, .error e)
      | .ok vols' =>
        match vols'.find? (fun v => v.name = name) with
        | some v => (cmd :: r.1, .ok v)
        | none =>
          (cmd :: r.1,
           .error (.zfsError ("Volume not found in pool " ++ poolName ++ ": " ++ name)))

/- ### Old API: ZFSVolume snapshot operations (src/ultimatum/zfs.py 341-405) -/

/-- `ZFSVolume.create_snapshot` (lines 354-363): issues the external create
with NO pre-check against the catalog, then reloads the catalog. -/
def ZFSVolume.create_snapshot (w : World) (volFull tag : String) :
    List (List String) × Except PyError Catalog :=
  let cmd := ["zfs", "snapshot", volFull ++ "@" ++ tag]
  match check_cmd_output w cmd with
  | .error _ => ([cmd], .error (.zfsError ("Error creating snapshot for " ++ volFull)))
  | .ok _ =>
    match ZFSSnapshots.reload w with
    | .error e => ([cmd, ["zfs", "list", "-Ht", "snapshot"]], .error e)
    | .ok cat => ([cmd, ["zfs", "list", "-Ht", "snapshot"]], .ok cat)

/-- `ZFSVolume.destroy_snapshot` (lines 341-352).  When the tag is absent
the code executes `raise` on a plain string (line 346), which in
Python 2.6+ raises `TypeError: exceptions must be old-style classes or
derived from BaseException, not str`, not a ZFSError. -/
def ZFSVolume.destroy_snapshot (w : World) (cat : Catalog)
    (poolName volFull relName tag : String) :
    List (List String) × Except PyError Catalog :=
  if tag ∈ volSnapshots cat poolName relName then
    let cmd := ["zfs", "destroy", volFull ++ "@" ++ tag]
    match check_cmd_output w cmd with
    | .error _ => ([cmd], .error (.zfsError ("Error destroying snapshot for " ++ volFull)))
    | .ok _ =>
      match ZFSSnapshots.reload w with
      | .error e => ([cmd, ["zfs", "list", "-Ht", "snapshot"]], .error e)
      | .ok cat' => ([cmd, ["zfs", "list", "-Ht", "snapshot"]], .ok cat')
  else
    ([], .error (.typeError
      "exceptions must be old-style classes or derived from BaseException, not str"))

/-- Tag determination inside `ZFSVolume.clone` (lines 385-392): a latest
tag in the timestamp grammar yields a fresh now-timestamp tag; otherwise an
integer latest tag yields its successor; otherwise ZFSError. -/
def cloneTag (latest nowTag : String) : Except PyError String :=
  match tsKey latest with
  | some _ => .ok nowTag
  | none =>
    match intKey latest with
    | some i => .ok (toString (i + 1))
    | none => .error (.zfsError ("Snapshot tag format not supported: " ++ latest))

/-- `ZFSVolume.clone` (lines 376-405): with existing snapshots, create the
new tag and send incrementally from the latest catalog tag; with none, send
a full stream; pipe the send into `zfs receive -d` on the backup pool,
block on the receive stage and return its exit status (`dstExit` models the
terminated destination exit status). -/
def ZFSVolume.clone (w : World) (cat : Catalog)
    (poolName volFull relName bpName nowTag : String) (dstExit : Int) :
    List (List String) × Except PyError (List String × List String × Int) :=
  let snaps := volSnapshots cat poolName relName
  match snaps.getLast? with
  | some latest =>
    match cloneTag latest nowTag with
    | .error e => ([], .error e)
    | .ok tag =>
      let r := ZFSVolume.create_snapshot w volFull tag
      match r.2 with
      | .error e => (r.1, .error e)
      | .ok _ =>
        let src := ["zfs", "send", "-i", latest, volFull ++ "@" ++ tag]
        let dst := ["zfs", "receive", "-d", bpName]
        (r.1 ++ [src, dst], .ok (src, dst, dstExit))
  | none =>
    let r := ZFSVolume.create_snapshot w volFull nowTag
    match r.2 with
    | .error e => (r.1, .error e)
    | .ok _ =>
      let src := ["zfs", "send", volFull ++ "@" ++ nowTag]
      let dst := ["zfs", "receive", "-d", bpName]
      (r.1 ++ [src, dst], .ok (src, dst, dstExit))

/- ### New API: ZFSSnapshot and ZFS (src/ultimatum/zfs/zfs.py) -/

/-- A snapshot object of the new API. -/
structure ZFSSnapshot where
  name : String
  volume : String
  tag : String
deriving DecidableEq, Repr

/-- Modelled from the spec: the `ZFSSnapshot` class lives in
ultimatum/zfs/snapshots.py, which is not under src/.  Per the spec a
snapshot is identified by its filesystem and its tag, the tag being the
suffix of `volume@tag` after the at-sign (section 4.2 splits at the last
one); equality with a plain string compares the full name. -/
def ZFSSnapshot.ofName (n : String) : ZFSSnapshot :=
  match splitLast '@' n with
  | some (v, t) => ⟨n, v, t⟩
  | none => ⟨n, n, ""⟩

/-- Modelled from the spec: the textual rendering of a snapshot used as the
incremental-send base names the latest existing tag (spec section 4.5
step 1); `ZFSSnapshot.__str__` is in the missing snapshots.py. -/
def snapStr (s : ZFSSnapshot) : String := s.tag

/-- The per-filesystem snapshot listing command of the new API. -/
def zfsSnapshotsCmd (selfName : String) : List String :=
  ["zfs", "list", "-Hrt", "snapshot", "-o", "name", selfName]

/-- The `ZFS.snapshots` property (src/ultimatum/zfs/zfs.py 102-113): list
snapshot names recursively, skip empty names, keep those whose volume part
is this dataset. -/
def ZFS.snapshots (w : World) (selfName : String) : Except PyError (List ZFSSnapshot) :=
  match execute w ("zfs list -Hrt snapshot -o name " ++ selfName) with
  | .error e => .error e
  | .ok lines =>
    .ok ((((lines.filter (· ≠ "")).map ZFSSnapshot.ofName).filter
      (fun s => s.volume = selfName)))

def ZFS_BOOLEAN_PROPERTIES : List String :=
  ["atime", "checksum", "canmount", "dedup", "devices", "exec", "jailed",
   "mounted", "nbmand", "readonly", "setuid", "sharenfs", "sharesmb", "type",
   "utf8only", "vscan", "xattr"]

def ZFS_READONLY_PROPERTIES : List String :=
  ["available", "creation", "refcompressratio", "referenced", "type", "used",
   "usedbychildren", "usedbydataset", "usedbyrefreservation",
   "usedbysnapshots", "written"]

def ZFS_STRING_PROPERTIES : List String :=
  ["aclinherit", "aclmode", "casesensitivity", "compressratio", "copies",
   "logbias", "mlslabel", "mountpoint", "normalization", "primarycache",
   "quota", "recordsize", "refquota", "refreservation", "reservation",
   "secondarycache", "snapdir", "sync", "version"]

def ZFS_PROPERTIES : List String :=
  ZFS_BOOLEAN_PROPERTIES ++ ZFS_READONLY_PROPERTIES ++ ZFS_STRING_PROPERTIES

/-- A value returned by a property read: absent, boolean-coerced, or raw. -/
inductive PropValue where
  | none
  | bool (b : Bool)
  | str (s : String)
deriving DecidableEq, Repr

/-- The line scan of `ZFS.get_property` (src/ultimatum/zfs/zfs.py 121-129):
take the first line that unpacks into four whitespace fields with matching
volume and key (the `break`); lines that fail to unpack are skipped and a
parsed non-matching line resets the value to None. -/
def zfsGetScan (selfName key : String) : List String → Option String
  | [] => Option.none
  | line :: rest =>
    match pyTokens line with
    | v :: f :: val :: _ :: _ =>
      if v = selfName ∧ f = key then some val else zfsGetScan selfName key rest
    | _ => zfsGetScan selfName key rest

/-- `ZFS.get_property` (src/ultimatum/zfs/zfs.py 115-140).  Line 134 reads
`value == '-' and key in ZFS_OPTIONAL_PROPERTIES`, but the name
`ZFS_OPTIONAL_PROPERTIES` is defined nowhere in the module and is not
imported, so whenever the reported value is the sentinel `-` the
short-circuiting `and` evaluates the undefined name and raises NameError. -/
def ZFS.get_property (w : World) (selfName key : String) : Except PyError PropValue :=
  if key ∉ ZFS_PROPERTIES then .error (.zfsError "Invalid property name")
  else
    match execute w ("zfs get -H " ++ key ++ " " ++ selfName) with
    | .error e => .error e
    | .ok lines =>
      match zfsGetScan selfName key lines with
      | Option.none => .ok .none
      | some value =>
        if value = "-" then .error (.nameError "ZFS_OPTIONAL_PROPERTIES")
        else if key ∈ ZFS_BOOLEAN_PROPERTIES then .ok (.bool (value = "on"))
        else .ok (.str value)

/-- `ZFS.create_snapshot` (src/ultimatum/zfs/zfs.py 166-175) with an
explicit tag (a missing tag is generated from the current time, which a
caller of this model supplies as `tag`): re-query the snapshot listing,
fail with SnapshotExists when `name` is already present, otherwise issue
the external create and return the tag. -/
def ZFS.create_snapshot (w : World) (selfName tag : String) :
    List (List String) × Except PyError String :=
  let name := selfName ++ "@" ++ tag
  match ZFS.snapshots w selfName with
  | .error e => ([zfsSnapshotsCmd selfName], .error e)
  | .ok snaps =>
    if snaps.any (fun s => s.name = name) then
      ([zfsSnapshotsCmd selfName], .error (.zfsError ("Snapshot already exists: " ++ name)))
    else
      let cmd := splitCh ' ' ("zfs snapshot " ++ name)
      match execute w ("zfs snapshot " ++ name) with
      | .error e => ([zfsSnapshotsCmd selfName, cmd], .error e)
      | .ok _ => ([zfsSnapshotsCmd selfName, cmd], .ok tag)

/-- `ZFS.remove_snapshot` (src/ultimatum/zfs/zfs.py 177-185) for a string
argument: fail when the composed name is absent from the fresh listing,
otherwise issue the destroy.  No catalog reload exists in the new API. -/
def ZFS.remove_snapshot (w : World) (selfName tag : String) :
    List (List String) × Except PyError Unit :=
  let name := selfName ++ "@" ++ tag
  match ZFS.snapshots w selfName with
  | .error e => ([zfsSnapshotsCmd selfName], .error e)
  | .ok snaps =>
    if ¬ snaps.any (fun s => s.name = name) then
      ([zfsSnapshotsCmd selfName], .error (.zfsError ("No such snapshot: " ++ name)))
    else
      let cmd := splitCh ' ' ("zfs destroy " ++ name)
      match execute w ("zfs destroy " ++ name) with
      | .error e => ([zfsSnapshotsCmd selfName, cmd], .error e)
      | .ok _ => ([zfsSnapshotsCmd selfName, cmd], .ok ())

/-- The selection predicate of `ZFS.filter_snapshots` (lines 201-209): a
tag that fails to parse is skipped, a parsing tag is kept when its instant
lies in the inclusive range. -/
def tagInRange (parse : String → Option Int) (s e : Int) (sn : ZFSSnapshot) : Bool :=
  match parse sn.tag with
  | Option.none => false
  | some d => decide (s ≤ d) && decide (d ≤ e)

/-- `ZFS.filter_snapshots` (src/ultimatum/zfs/zfs.py 187-211) for string
bounds.  `datetime.strptime` under the caller-supplied format string is
modelled by `parse`, an order-embedding of the parsed instants into `Int`;
the default format is `tsKey`.  Bounds that fail to parse raise the
date-format ZFSError, a start after the stop raises the date-range
ZFSError, and otherwise the snapshots of the fresh listing are filtered. -/
def ZFS.filter_snapshots (parse : String → Option Int) (w : World)
    (selfName start stop : String) : Except PyError (List ZFSSnapshot) :=
  match parse start with
  | Option.none =>
    .error (.zfsError ("Filter dates do not match default date format: " ++ SNAPSHOT_DATE_FORMAT))
  | some s =>
    match parse stop with
    | Option.none =>
      .error (.zfsError ("Filter dates do not match default date format: " ++ SNAPSHOT_DATE_FORMAT))
    | some e =>
      if s > e then .error (.zfsError "Invalid date range: start is after stop")
      else
        match ZFS.snapshots w selfName with
        | .error err => .error err
        | .ok snaps => .ok (snaps.filter (tagInRange parse s e))

/-- `ZFS.clone_to_pool` (src/ultimatum/zfs/zfs.py 213-235): with existing
snapshots, snapshot the new tag and send incrementally from the rendered
latest snapshot, else send the full stream; receive into the target pool
(`-Fd` under force, `-d` otherwise); `dst.communicate()` blocks until the
receive stage (exit status `dstExit`) terminates — and the function body
ends without a return statement, so the Python function returns None. -/
def ZFS.clone_to_pool (w : World) (selfName poolName tag : String)
    (force : Bool) (dstExit : Int) :
    List (List String) × Except PyError (Option Int) :=
  match ZFS.snapshots w selfName with
  | .error e => ([zfsSnapshotsCmd selfName], .error e)
  | .ok snaps =>
    match snaps.getLast? with
    | some last =>
      let latest := snapStr last
      let r := ZFS.create_snapshot w selfName tag
      match r.2 with
      | .error e => (zfsSnapshotsCmd selfName :: r.1, .error e)
      | .ok _ =>
        let src := ["zfs", "send", "-i", latest, selfName ++ "@" ++ tag]
        let dst := if force then ["zfs", "receive", "-Fd", poolName]
                   else ["zfs", "receive", "-d", poolName]
        (zfsSnapshotsCmd selfName :: r.1 ++ [src, dst], .ok Option.none)
    | Option.none =>
      let r := ZFS.create_snapshot w selfName tag
      match r.2 with
      | .error e => (zfsSnapshotsCmd selfName :: r.1, .error e)
      | .ok _ =>
        let src := ["zfs", "send", selfName ++ "@" ++ tag]
        let dst := if force then ["zfs", "receive", "-Fd", poolName]
                   else ["zfs", "receive", "-d", poolName]
        (zfsSnapshotsCmd selfName :: r.1 ++ [src, dst], .ok Option.none)

/- ### New API: ZPool (src/ultimatum/zfs/zpool.py) -/

def ZPOOL_READONLY_PROPERTIES : List String :=
  ["allocated", "capacity", "dedupratio", "expandsize", "free", "guid",
   "health", "size", "readonly"]

def ZPOOL_BOOLEAN_PROPERTIES : List String :=
  ["autoexpand", "autoreplace", "delegation", "listsnapshots", "readonly"]

def ZPOOL_STRING_PROPERTIES : List String :=
  ["altroot", "bootfs", "cachefile", "comment", "dedupditto", "failmode",
   "version"]

def ZPOOL_OPTIONAL_PROPERTIES : List String :=
  ["altroot", "bootfs", "cachefile", "comment", "expandsize"]

def ZPOOL_HEALTH_STATES : List String :=
  ["DEGRADED", "FAULTED", "OFFLINE", "ONLINE", "REMOVED", "UNAVAIL"]

def ZPOOL_PROPERTIES : List String :=
  ZPOOL_READONLY_PROPERTIES ++ ZPOOL_BOOLEAN_PROPERTIES ++ ZPOOL_STRING_PROPERTIES

/-- `poolnames` (src/ultimatum/zfs/zpool.py 61-65): first token of each
line of the global pool listing. -/
def poolnames (w : World) : Except PyError (List String) :=
  match execute w "zpool list -H" with
  | .error e => .error e
  | .ok lines => .ok (lines.map firstTok)

/-- `ZPool.is_available` (src/ultimatum/zfs/zpool.py 110-115): false when
the pool name is absent from the listing, true otherwise. -/
def ZPool.is_available (w : World) (poolName : String) : Except PyError Bool :=
  match poolnames w with
  | .error e => .error e
  | .ok names => .ok (decide (poolName ∈ names))

/-- `ZPool.get_property` (src/ultimatum/zfs/zpool.py 74-89): the joined
output is the value; the sentinel `-` of an explicitly optional property
maps to None; boolean properties coerce `on`; an unrecognised health state
raises. -/
def ZPool.get_property (w : World) (poolName property : String) :
    Except PyError PropValue :=
  if property ∉ ZPOOL_PROPERTIES then .error (.zfsError "Invalid property name")
  else
    match execute w ("zpool list -H -o " ++ property ++ " " ++ poolName) with
    | .error e => .error e
    | .ok lines =>
      let value := joinSp lines
      if value = "-" ∧ property ∈ ZPOOL_OPTIONAL_PROPERTIES then .ok .none
      else if property ∈ ZPOOL_BOOLEAN_PROPERTIES then .ok (.bool (value = "on"))
      else if property = "health" ∧ value ∉ ZPOOL_HEALTH_STATES then
        .error (.zfsError ("Unknown health state for pool " ++ poolName ++ ": " ++ value))
      else .ok (.str value)

deriving instance DecidableEq for Except

/- ### Helper lemmas about the first-occurrence split -/

theorem toList_mk (l : List Char) : (String.mk l).toList = l := rfl

theorem splitOnceAux_eq_some (sep : Char) (l₁ l₂ : List Char) (h : sep ∉ l₁) :
    splitOnceAux sep (l₁ ++ sep :: l₂) = some (l₁, l₂) := by
  induction l₁ with
  | nil => simp [splitOnceAux]
  | cons c rest ih =>
    simp only [List.mem_cons, not_or] at h
    have hcs : ¬ c = sep := fun hc => h.1 hc.symm
    simp [splitOnceAux, hcs, ih h.2]

theorem splitOnceAux_eq_none (sep : Char) (l : List Char) (h : sep ∉ l) :
    splitOnceAux sep l = none := by
  induction l with
  | nil => rfl
  | cons c rest ih =>
    simp only [List.mem_cons, not_or] at h
    have hcs : ¬ c = sep := fun hc => h.1 hc.symm
    simp [splitOnceAux, hcs, ih h.2]

/- ### Concrete external worlds used by the claim theorems -/

def wC1 : World := fun cmd =>
  if cmd = ["zfs", "list", "-Ht", "snapshot"] then
    .ok ["tank/a@3", "tank/a@1", "tank/a@10", "tank/b@3", "tank/b@1", "tank/b@10"]
  else .fail

def wC4 : World := fun cmd =>
  if cmd = ["zpool", "list", "-H"] then .ok ["tank\t928G\t464M"]
  else .fail

def wC7 : World := fun cmd =>
  if cmd = ["zpool", "list", "-H", "-o", "expandsize", "tank"] then .ok ["-"]
  else if cmd = ["zfs", "get", "-H", "mlslabel", "tank/data"] then
    .ok ["tank/data\tmlslabel\t-\t-"]
  else .fail

def catC8 : Catalog := [("tank", [("data", ["v1"])])]

def wC8 : World := fun cmd =>
  if cmd = zfsSnapshotsCmd "tank/data" then .ok ["tank/data@v1"] else .fail

def volsC9 : List VolEntry := [⟨"tank/data", "data", Option.none⟩]

def wC9 : World := fun _ => .fail

def wC10 : World := fun cmd =>
  if cmd = ["zpool", "list", "backups"] then .fail else .ok []

def catC3 : Catalog := [("tank", [("data", ["v1"])])]

def wC3old : World := fun _ => .fail

def wC3new : World := fun cmd =>
  if cmd = zfsSnapshotsCmd "tank/data" then .ok ["tank/data@v1"] else .fail

def wC2n : World := fun cmd =>
  if cmd = zfsSnapshotsCmd "tank/data" then .ok ["tank/data@v1"]
  else if cmd = ["zfs", "snapshot", "tank/data@v2"] then .ok []
  else .fail

/- ### Claim theorems -/

/-- C1: the sorting pass of `ZFSSnapshots.reload` does NOT apply the
ordering policy to every (pool, filesystem) group: the `return` at
src/ultimatum/zfs.py line 67 exits `reload` as soon as the first group is
successfully sorted.  With two integer-tagged groups, the group reached
first is sorted numerically and the other keeps its listing order. -/
theorem reload_sorts_only_first_group :
    ZFSSnapshots.reload wC1 =
      .ok [("tank", [("a", ["1", "3", "10"]), ("b", ["3", "1", "10"])])] ∧
    ["3", "1", "10"] ≠ ["1", "3", "10"] := by
  constructor
  · decide
  · decide

/-- C4: `ZFSPool.available` raises instead of returning false for a pool
that is not imported: `check_cmd_output` converts CalledProcessError into
ZFSError, so the `except CalledProcessError: return False` clause never
matches and the ZFSError propagates out of the property.  The new-API
`ZPool.is_available` does return false without raising for a pool absent
from the global listing. -/
theorem available_raises_for_missing_pool :
    ZFSPool.available wC10 "backups" =
      .error (.zfsError "Error running command zpool list backups") ∧
    ZPool.is_available wC4 "backups" = .ok false := by
  constructor
  · decide
  · decide

/-- C7: for the optional pool property `expandsize`, `ZPool.get_property`
maps the sentinel `-` to the absence of a value; but for the filesystem
property `mlslabel`, `ZFS.get_property` with reported value `-` evaluates
the undefined name `ZFS_OPTIONAL_PROPERTIES` (src/ultimatum/zfs/zfs.py
line 134) and raises NameError rather than returning None. -/
theorem get_property_dash_sentinel :
    ZPool.get_property wC7 "tank" "expandsize" = .ok .none ∧
    ("mlslabel" ∈ ZFS_PROPERTIES) ∧
    ZFS.get_property wC7 "tank/data" "mlslabel" =
      .error (.nameError "ZFS_OPTIONAL_PROPERTIES") := by
  refine ⟨by decide, by decide, by decide⟩

/-- C8: `ZFSVolume.destroy_snapshot` on an absent tag issues no external
destroy (empty trace) but fails by raising a plain string (line 346), a
TypeError in Python 2.6+, not a ZFSError SnapshotNotFound; the new-API
`ZFS.remove_snapshot` does fail with the SnapshotNotFound ZFSError after
only the read-only listing query. -/
theorem destroy_missing_snapshot_raises_string :
    ("v2" ∉ volSnapshots catC8 "tank" "data") ∧
    ZFSVolume.destroy_snapshot wC8 catC8 "tank" "tank/data" "data" "v2" =
      ([], .error (.typeError
        "exceptions must be old-style classes or derived from BaseException, not str")) ∧
    ZFS.remove_snapshot wC8 "tank/data" "v2" =
      ([zfsSnapshotsCmd "tank/data"],
       .error (.zfsError "No such snapshot: tank/data@v2")) := by
  refine ⟨by decide, by decide, by decide⟩

/-- C9: `ZFSPool.create_volume` on a pool that already contains the
composed dataset `tank/data` does not fail with FilesystemExists: the
membership test compares the composed name against each volume through the
string branch of `ZFSVolume.__cmp__`, which uses the pool-relative name
(`data`), so the pre-check never fires and the external create is issued,
failing with the generic creation error. -/
theorem create_volume_precheck_never_fires :
    volsC9.any (fun v => v.volume = "tank" ++ "/" ++ "data") = true ∧
    ZFSPool.create_volume wC9 "tank" volsC9 "data" =
      ([["zfs", "create", "tank/data"]],
       .error (.zfsError "Error creating volume tank/data")) := by
  refine ⟨by decide, by decide⟩

/-- C10: constructing `ZFSPool` for a pool that is not currently imported
does not trigger an import attempt: the availability query inside
`__init__` raises ZFSError (see C4), so construction fails at that query
and the only external command issued is the status query — no
`zpool import` ever runs. -/
theorem init_unavailable_pool_never_imports :
    ZFSPool.init wC10 "backups" =
      ([["zpool", "list", "backups"]],
       .error (.zfsError "Error running command zpool list backups")) ∧
    ["zpool", "import", "backups"] ∉ (ZFSPool.init wC10 "backups").1 := by
  refine ⟨by decide, by decide⟩

/-- C2 (counterexample): `ZFS.clone_to_pool` has no return statement, so it
returns None rather than the destination stage exit status: the same call
with destination exit status 7 and with 5 produces the identical result
value None. -/
theorem clone_to_pool_returns_no_exit_status :
    (ZFS.clone_to_pool wC2n "tank/data" "backups" "v2" false 7).2 = .ok Option.none ∧
    (ZFS.clone_to_pool wC2n "tank/data" "backups" "v2" false 5).2 = .ok Option.none := by
  refine ⟨by decide, by decide⟩

/-- C3 (counterexample): the old-API `ZFSVolume.create_snapshot` performs
no pre-check: with tag `v1` already in the catalog of `tank/data`, the call
still issues the external create command and, when that command fails, it
surfaces the generic creation ZFSError, not SnapshotExists. -/
theorem create_snapshot_no_precheck_old_api :
    "v1" ∈ volSnapshots catC3 "tank" "data" ∧
    ZFSVolume.create_snapshot wC3old "tank/data" "v1" =
      ([["zfs", "snapshot", "tank/data@v1"]],
       .error (.zfsError "Error creating snapshot for tank/data")) := by
  refine ⟨by decide, by decide⟩

/-- C6 (counterexample): the catalog line parse splits at the FIRST
at-sign, not the last: `a@b@c` parses with tag `b@c`, while the last-split
rule of the claim would give tag `c`. -/
theorem parseEntry_splits_first_at_sign :
    parseEntry "a@b@c" = .ok ("a", "a", "b@c") ∧ "b@c" ≠ "c" := by
  refine ⟨by decide, by decide⟩

/-- C6: the per-line parse rule of the catalog reload, as the code
implements it.  The tag is the part after the FIRST at-sign (everything
after it, even when it contains further at-signs); the part before it is
split at the first slash into pool and relative filesystem path, pool and
filesystem coinciding when it holds no slash; and a line with no at-sign
raises the fatal parse ZFSError. -/
theorem parseEntry_rule :
    (∀ pre post : List Char, '@' ∉ pre →
      (('/' ∉ pre →
        parseEntry (String.mk (pre ++ '@' :: post)) =
          .ok (String.mk pre, String.mk pre, String.mk post)) ∧
       (∀ p q : List Char, pre = p ++ '/' :: q → '/' ∉ p →
        parseEntry (String.mk (pre ++ '@' :: post)) =
          .ok (String.mk p, String.mk q, String.mk post)))) ∧
    (∀ l : List Char, '@' ∉ l →
      parseEntry (String.mk l) =
        .error (.zfsError ("Error parsing zfs snapshot output from " ++ String.mk l))) := by
  refine ⟨fun pre post hat => ⟨fun hsl => ?_, fun p q hpre hslp => ?_⟩, fun l hat => ?_⟩
  · unfold parseEntry splitOnce
    rw [toList_mk, splitOnceAux_eq_some '@' pre post hat]
    simp [toList_mk, splitOnceAux_eq_none '/' pre hsl]
  · unfold parseEntry splitOnce
    rw [toList_mk, splitOnceAux_eq_some '@' pre post hat]
    subst hpre
    simp [toList_mk, splitOnceAux_eq_some '/' p q hslp]
  · unfold parseEntry splitOnce
    rw [toList_mk, splitOnceAux_eq_none '@' l hat]
    rfl

/-- C6 (witness): the parse rule applied to the concrete entry
`tank/data@v1`. -/
theorem parseEntry_rule_witness :
    parseEntry (String.mk (['t', 'a', 'n', 'k', '/', 'd', 'a', 't', 'a'] ++ '@' :: ['v', '1'])) =
      .ok ("tank", "data", "v1") := by
  have h := (parseEntry_rule.1 ['t', 'a', 'n', 'k', '/', 'd', 'a', 't', 'a'] ['v', '1']
      (by decide)).2 ['t', 'a', 'n', 'k'] ['d', 'a', 't', 'a'] (by decide) (by decide)
  exact h.trans (by decide)

/-- C3 (amended): the new-API `ZFS.create_snapshot` does pre-check the
freshly queried snapshot listing: when the composed name is already
present, it fails with the SnapshotExists ZFSError and the only external
command issued is the read-only listing query — no create (and no destroy)
is issued. -/
theorem create_snapshot_exists_precheck (w : World) (selfName tag : String)
    (snaps : List ZFSSnapshot)
    (hq : ZFS.snapshots w selfName = .ok snaps)
    (hmem : (selfName ++ "@" ++ tag) ∈ snaps.map ZFSSnapshot.name) :
    ZFS.create_snapshot w selfName tag =
      ([zfsSnapshotsCmd selfName],
       .error (.zfsError ("Snapshot already exists: " ++ (selfName ++ "@" ++ tag)))) := by
  have hany : snaps.any (fun s => s.name = selfName ++ "@" ++ tag) = true := by
    rw [List.any_eq_true]
    obtain ⟨s, hs, hname⟩ := List.mem_map.mp hmem
    exact ⟨s, hs, by simp [hname]⟩
  unfold ZFS.create_snapshot
  rw [hq]
  simp [hany]

/-- C3 (witness): the pre-check fires on a filesystem that already carries
tag `v1`. -/
theorem create_snapshot_exists_precheck_witness :
    ZFS.create_snapshot wC3new "tank/data" "v1" =
      ([zfsSnapshotsCmd "tank/data"],
       .error (.zfsError "Snapshot already exists: tank/data@v1")) := by
  have h := create_snapshot_exists_precheck wC3new "tank/data" "v1"
      [ZFSSnapshot.ofName "tank/data@v1"] (by decide) (by decide)
  exact h.trans (by decide)

def wC5 : World := fun cmd =>
  if cmd = zfsSnapshotsCmd "tank/data" then
    .ok ["tank/data@2020-01-01.00:00:00", "tank/data@2020-02-01.00:00:00",
         "tank/data@not-a-date"]
  else .fail

def snapListC5 : List ZFSSnapshot :=
  [ZFSSnapshot.ofName "tank/data@2020-01-01.00:00:00",
   ZFSSnapshot.ofName "tank/data@2020-02-01.00:00:00",
   ZFSSnapshot.ofName "tank/data@not-a-date"]

/-- C5: for every parse function (the strptime instance of the supplied
format) and bounds, `ZFS.filter_snapshots` fails with the date-format
ZFSError when either bound fails to parse, fails with the date-range
ZFSError when the parsed start is after the parsed stop, and otherwise
returns exactly the listed snapshots whose tag parses with an instant in
the inclusive range, silently excluding every snapshot whose tag does not
parse. -/
theorem filter_snapshots_spec (parse : String → Option Int) (w : World)
    (name start stop : String) :
    (parse start = Option.none →
      ZFS.filter_snapshots parse w name start stop =
        .error (.zfsError
          ("Filter dates do not match default date format: " ++ SNAPSHOT_DATE_FORMAT))) ∧
    (∀ s : Int, parse start = some s → parse stop = Option.none →
      ZFS.filter_snapshots parse w name start stop =
        .error (.zfsError
          ("Filter dates do not match default date format: " ++ SNAPSHOT_DATE_FORMAT))) ∧
    (∀ s e : Int, parse start = some s → parse stop = some e → s > e →
      ZFS.filter_snapshots parse w name start stop =
        .error (.zfsError "Invalid date range: start is after stop")) ∧
    (∀ (s e : Int) (l : List ZFSSnapshot),
      parse start = some s → parse stop = some e → ¬ s > e →
      ZFS.snapshots w name = .ok l →
      ZFS.filter_snapshots parse w name start stop =
        .ok (l.filter (tagInRange parse s e)) ∧
      ∀ sn : ZFSSnapshot,
        sn ∈ l.filter (tagInRange parse s e) ↔
          sn ∈ l ∧ ∃ d : Int, parse sn.tag = some d ∧ s ≤ d ∧ d ≤ e) := by
  refine ⟨fun h1 => ?_, fun s h1 h2 => ?_, fun s e h1 h2 h3 => ?_,
    fun s e l h1 h2 h3 h4 => ⟨?_, fun sn => ?_⟩⟩
  · simp [ZFS.filter_snapshots, h1]
  · simp [ZFS.filter_snapshots, h1, h2]
  · simp [ZFS.filter_snapshots, h1, h2, h3]
  · simp [ZFS.filter_snapshots, h1, h2, h3, h4]
  · rw [List.mem_filter]
    constructor
    · rintro ⟨hm, hr⟩
      refine ⟨hm, ?_⟩
      unfold tagInRange at hr
      cases hp : parse sn.tag with
      | none => rw [hp] at hr; simp at hr
      | some d =>
        rw [hp] at hr
        simp only [Bool.and_eq_true, decide_eq_true_eq] at hr
        exact ⟨d, rfl, hr.1, hr.2⟩
    · rintro ⟨hm, d, hp, hd1, hd2⟩
      refine ⟨hm, ?_⟩
      unfold tagInRange
      rw [hp]
      simp [hd1, hd2]

/-- C5 (witness): the spec scenario — tags `2020-01-01.00:00:00`,
`2020-02-01.00:00:00` and `not-a-date`, filtered between
`2020-01-15.00:00:00` and `2020-03-01.00:00:00`, select exactly the
February snapshot. -/
theorem filter_snapshots_spec_witness :
    ZFS.filter_snapshots tsKey wC5 "tank/data" "2020-01-15.00:00:00" "2020-03-01.00:00:00" =
      .ok [ZFSSnapshot.ofName "tank/data@2020-02-01.00:00:00"] := by
  have h := ((filter_snapshots_spec tsKey wC5 "tank/data" "2020-01-15.00:00:00"
      "2020-03-01.00:00:00").2.2.2 ((tsKey "2020-01-15.00:00:00").getD 0)
      ((tsKey "2020-03-01.00:00:00").getD 0) snapListC5 (by decide) (by decide) (by decide)
      (by decide)).1
  exact h.trans (by decide)

def catC2 : Catalog := [("tank", [("data", ["5"])])]

def wC2o : World := fun cmd =>
  if cmd = ["zfs", "snapshot", "tank/data@6"] then .ok []
  else if cmd = ["zfs", "list", "-Ht", "snapshot"] then .ok []
  else .fail

/-- C2 (amended): for both replication entry points, a source filesystem
with at least one existing snapshot yields an incremental send stage
naming the latest tag and the newly created tag, and one with none yields
a full-stream send stage; the destination receive stage is awaited.  The
old-API `ZFSVolume.clone` returns the destination exit status as its
result, while the new-API `ZFS.clone_to_pool` returns None — it has no
return statement — whatever the destination exit status is. -/
theorem clone_pipeline_spec :
    (∀ (w : World) (cat : Catalog) (pool volFull rel bp nowTag : String) (dExit : Int)
        (latest tag : String) (tr : List (List String)) (cat' : Catalog),
      (volSnapshots cat pool rel).getLast? = some latest →
      cloneTag latest nowTag = .ok tag →
      ZFSVolume.create_snapshot w volFull tag = (tr, .ok cat') →
      ZFSVolume.clone w cat pool volFull rel bp nowTag dExit =
        (tr ++ [["zfs", "send", "-i", latest, volFull ++ "@" ++ tag],
                ["zfs", "receive", "-d", bp]],
         .ok (["zfs", "send", "-i", latest, volFull ++ "@" ++ tag],
              ["zfs", "receive", "-d", bp], dExit))) ∧
    (∀ (w : World) (cat : Catalog) (pool volFull rel bp nowTag : String) (dExit : Int)
        (tr : List (List String)) (cat' : Catalog),
      (volSnapshots cat pool rel).getLast? = Option.none →
      ZFSVolume.create_snapshot w volFull nowTag = (tr, .ok cat') →
      ZFSVolume.clone w cat pool volFull rel bp nowTag dExit =
        (tr ++ [["zfs", "send", volFull ++ "@" ++ nowTag], ["zfs", "receive", "-d", bp]],
         .ok (["zfs", "send", volFull ++ "@" ++ nowTag],
              ["zfs", "receive", "-d", bp], dExit))) ∧
    (∀ (w : World) (selfName pool tag : String) (force : Bool) (dExit : Int)
        (snaps : List ZFSSnapshot) (last : ZFSSnapshot) (tr : List (List String)),
      ZFS.snapshots w selfName = .ok snaps →
      snaps.getLast? = some last →
      ZFS.create_snapshot w selfName tag = (tr, .ok tag) →
      ZFS.clone_to_pool w selfName pool tag force dExit =
        (zfsSnapshotsCmd selfName :: tr ++
           [["zfs", "send", "-i", snapStr last, selfName ++ "@" ++ tag],
            if force then ["zfs", "receive", "-Fd", pool]
            else ["zfs", "receive", "-d", pool]],
         .ok Option.none)) ∧
    (∀ (w : World) (selfName pool tag : String) (force : Bool) (dExit : Int)
        (tr : List (List String)),
      ZFS.snapshots w selfName = .ok [] →
      ZFS.create_snapshot w selfName tag = (tr, .ok tag) →
      ZFS.clone_to_pool w selfName pool tag force dExit =
        (zfsSnapshotsCmd selfName :: tr ++
           [["zfs", "send", selfName ++ "@" ++ tag],
            if force then ["zfs", "receive", "-Fd", pool]
            else ["zfs", "receive", "-d", pool]],
         .ok Option.none)) := by
  refine ⟨fun w cat pool volFull rel bp nowTag dExit latest tag tr cat' h1 h2 h3 => ?_,
    fun w cat pool volFull rel bp nowTag dExit tr cat' h1 h3 => ?_,
    fun w selfName pool tag force dExit snaps last tr h1 h2 h3 => ?_,
    fun w selfName pool tag force dExit tr h1 h3 => ?_⟩
  · simp [ZFSVolume.clone, h1, h2, h3]
  · simp [ZFSVolume.clone, h1, h3]
  · simp [ZFS.clone_to_pool, h1, h2, h3]
  · simp [ZFS.clone_to_pool, h1, h3]

/-- C2 (witness): the incremental old-API case at a concrete input — one
existing integer tag `5`, incremented to `6`, incremental send from `5`,
receive into `backups`, and the destination exit status 0 returned. -/
theorem clone_pipeline_spec_witness :
    ZFSVolume.clone wC2o catC2 "tank" "tank/data" "data" "backups" "2020-01-01.00:00:00" 0 =
      ([["zfs", "snapshot", "tank/data@6"], ["zfs", "list", "-Ht", "snapshot"],
        ["zfs", "send", "-i", "5", "tank/data@6"], ["zfs", "receive", "-d", "backups"]],
       .ok (["zfs", "send", "-i", "5", "tank/data@6"],
            ["zfs", "receive", "-d", "backups"], 0)) := by
  have h := clone_pipeline_spec.1 wC2o catC2 "tank" "tank/data" "data" "backups"
      "2020-01-01.00:00:00" 0 "5" "6"
      [["zfs", "snapshot", "tank/data@6"], ["zfs", "list", "-Ht", "snapshot"]] []
      (by decide) (by decide) (by decide)
  exact h.trans (by decide)
